import Mathlib

/-!
# cluster-api-provider-ovirt: machine actuator and machine validation

A shallow embedding of `pkg/actuators/machine/validations.go` and
`pkg/actuators/machine/actuator.go`.

* Go pointers that may be nil are `Option`s.
* Go `int64` arithmetic is arithmetic on `Int` followed by `wrapInt64`.
* A Go function that may panic returns `Go α`.
* Calls into collaborators (the oVirt engine, the Kubernetes client, the machine scope)
  are answers supplied by an environment record; every call made is logged.
-/

namespace Ovirt

/-! ## Go runtime -/

/-- Result of running Go code that either returns a value or panics. -/
inductive Go (α : Type) where
  | ret (a : α) : Go α
  | panicked : Go α
deriving DecidableEq, Repr

/-- Sequencing of Go code: a panic aborts everything that follows. -/
def Go.bind {α β : Type} (x : Go α) (f : α → Go β) : Go β :=
  match x with
  | Go.ret a => f a
  | Go.panicked => Go.panicked

instance : Monad Go where
  pure := Go.ret
  bind := Go.bind

/-- Two's-complement wrap-around of a mathematical integer into the `int64` range. -/
def wrapInt64 (x : Int) : Int := (x + 2 ^ 63) % 2 ^ 64 - 2 ^ 63

/-- Go `a - b` on `int64` operands. -/
def subInt64 (a b : Int) : Int := wrapInt64 (a - b)

/-- The value is representable as a Go `int64`. -/
def isInt64 (x : Int) : Prop := -(2 ^ 63) ≤ x ∧ x < 2 ^ 63

instance (x : Int) : Decidable (isInt64 x) := by
  unfold isInt64; exact inferInstance

/-- The lexicographic order on (major, minor, build, revision): strictly smaller. -/
def lexLt (v w : Int × Int × Int × Int) : Prop :=
  v.1 < w.1 ∨ (v.1 = w.1 ∧ (v.2.1 < w.2.1 ∨ (v.2.1 = w.2.1 ∧
    (v.2.2.1 < w.2.2.1 ∨ (v.2.2.1 = w.2.2.1 ∧ v.2.2.2 < w.2.2.2)))))

instance (v w : Int × Int × Int × Int) : Decidable (lexLt v w) := by
  unfold lexLt; exact inferInstance

/-- Go `fmt.Sprintf(format)` called without operands, on the characters of `format`;
the flag says that the previous character was a `%` opening a directive. Plain text is
copied, `%%` prints a percent sign, a verb finds no operand and prints
`%!verb(MISSING)`, a trailing `%` prints `%!(NOVERB)`. Flags, widths and precisions
between `%` and the verb are not interpreted. -/
def doPrintfNoArgs : Bool → List Char → List Char
  | false, [] => []
  | true, [] => "%!(NOVERB)".data
  | false, c :: rest =>
    if c = '%' then doPrintfNoArgs true rest else c :: doPrintfNoArgs false rest
  | true, verb :: rest =>
    if verb = '%' then '%' :: doPrintfNoArgs false rest
    else "%!".data ++ verb :: "(MISSING)".data ++ doPrintfNoArgs false rest

/-- Go `fmt.Sprintf(format)` with no operands. -/
def Sprintf0 (format : String) : String := ⟨doPrintfNoArgs false format.data⟩

/-- Go `%d` of an integer. -/
def fmtD (i : Int) : String := toString i

/-! ## machine-api-operator errors -/

/-- Type `machinev1.MachineStatusError`, a string. -/
abbrev MachineStatusError := String

/-- Constant `machinev1.InvalidConfigurationMachineError`. -/
def InvalidConfigurationMachineError : MachineStatusError := "InvalidConfiguration"
/-- Constant `machinev1.CreateMachineError`. -/
def CreateMachineError : MachineStatusError := "CreateError"
/-- Constant `machinev1.UpdateMachineError`. -/
def UpdateMachineError : MachineStatusError := "UpdateError"

/-- Struct `apierrors.MachineError`. -/
structure MachineError where
  Reason : MachineStatusError
  Message : String
deriving DecidableEq, Repr

/-- A Go `error` value: one made by `fmt.Errorf`, or a `*apierrors.MachineError`. -/
inductive GoError where
  | errorString (msg : String) : GoError
  | machineError (e : MachineError) : GoError
deriving DecidableEq, Repr

/-- Method `Error()`; a `MachineError` prints its message. -/
def GoError.Error : GoError → String
  | GoError.errorString msg => msg
  | GoError.machineError e => e.Message

/-- `apierrors.InvalidMachineConfiguration(msg, args...)`; `message` is
`fmt.Sprintf(msg, args...)`. -/
def InvalidMachineConfiguration (message : String) : MachineError :=
  { Reason := InvalidConfigurationMachineError, Message := message }

/-- `apierrors.CreateMachine(msg, args...)`; `message` is `fmt.Sprintf(msg, args...)`. -/
def CreateMachine (message : String) : MachineError :=
  { Reason := CreateMachineError, Message := message }

/-- `apierrors.UpdateMachine(msg, args...)`; `message` is `fmt.Sprintf(msg, args...)`. -/
def UpdateMachine (message : String) : MachineError :=
  { Reason := UpdateMachineError, Message := message }

/-! ## Provider spec and engine version -/

/-- Struct `corev1.LocalObjectReference`. -/
structure LocalObjectReference where
  Name : String
deriving DecidableEq, Repr

/-- Struct `ovirtconfigv1.CPU`. -/
structure CPU where
  Sockets : Int
  Cores : Int
  Threads : Int
deriving DecidableEq, Repr

/-- Struct `ovirtconfigv1.Disk`. -/
structure Disk where
  SizeGB : Int
deriving DecidableEq, Repr

/-- The fields of `ovirtconfigv1.OvirtMachineProviderSpec` read by the validation. -/
structure OvirtMachineProviderSpec where
  UserDataSecret : Option LocalObjectReference
  InstanceTypeId : String
  MemoryMB : Int
  CPU : Option CPU
  OSDisk : Option Disk
  VMType : String
  AutoPinningPolicy : String
  Hugepages : Int
deriving DecidableEq, Repr

/-- Struct `ovirtsdk.Version`: every component is optional. -/
structure Version where
  major : Option Int
  minor : Option Int
  build : Option Int
  revision : Option Int
deriving DecidableEq, Repr

/-- A non-nil `*ovirtsdk.Version`: the address and the object it points to. -/
structure VersionRef where
  addr : Nat
  obj : Version
deriving DecidableEq, Repr

/-- Method `MustMajor`: panics when the component is not set. -/
def Version.MustMajor (v : Version) : Go Int :=
  match v.major with
  | some x => Go.ret x
  | none => Go.panicked

/-- Method `MustMinor`: panics when the component is not set. -/
def Version.MustMinor (v : Version) : Go Int :=
  match v.minor with
  | some x => Go.ret x
  | none => Go.panicked

/-- Method `MustBuild`: panics when the component is not set. -/
def Version.MustBuild (v : Version) : Go Int :=
  match v.build with
  | some x => Go.ret x
  | none => Go.panicked

/-- Method `MustRevision`: panics when the component is not set. -/
def Version.MustRevision (v : Version) : Go Int :=
  match v.revision with
  | some x => Go.ret x
  | none => Go.panicked

/-- Interface `ovirtC.OvirtClient`, as far as the validation uses it: the pair
`GetEngineVersion()` returns. -/
structure OvirtClient where
  GetEngineVersion : Option VersionRef × Option GoError
deriving DecidableEq, Repr

/-- A result together with the number of `GetEngineVersion` calls made to obtain it. -/
structure Validated (α : Type) where
  outcome : Go α
  engineVersionQueries : Nat
deriving DecidableEq, Repr

/-! ## validations.go -/

/-- Function `validateInstanceID`. -/
def validateInstanceID (ErrorInvalidMachineObject : String)
    (config : OvirtMachineProviderSpec) : Option MachineError :=
  if config.InstanceTypeId.length ≠ 0 then
    if config.MemoryMB ≠ 0 ∨ config.CPU ≠ none then
      some (InvalidMachineConfiguration (Sprintf0 (ErrorInvalidMachineObject ++
        " InstanceTypeID and MemoryMB OR CPU cannot be set at the same time!")))
    else none
  else
    if config.MemoryMB = 0 then
      some (InvalidMachineConfiguration (Sprintf0 (ErrorInvalidMachineObject ++
        " MemoryMB must be specified!")))
    else if config.CPU = none then
      some (InvalidMachineConfiguration (Sprintf0 (ErrorInvalidMachineObject ++
        " CPU must be specified!")))
    else none

/-- Function `validateVirtualMachineType`. -/
def validateVirtualMachineType (vmtype : String) : Option MachineError :=
  if vmtype.length = 0 then
    some (InvalidMachineConfiguration
      (Sprintf0 "VMType (keyword: type in YAML) must be specified"))
  else if vmtype = "server" ∨ vmtype = "high_performance" ∨ vmtype = "desktop" then
    none
  else
    some (InvalidMachineConfiguration
      ("error creating oVirt instance: The machine type must " ++
        "be one of the following options: " ++
        "server, high_performance or desktop. The value: " ++ vmtype ++ " is not valid"))

/-- Function `validateHugepages`. -/
def validateHugepages (value : Int) : Option GoError :=
  if value = 0 ∨ value = 2048 ∨ value = 1048576 then none
  else
    some (GoError.errorString
      ("error creating oVirt instance: The machine " ++ "\x60hugepages\x60" ++
        " custom property must " ++
        "be one of the following options: 2048, 1048576. " ++
        "The value: " ++ fmtD value ++ " is not valid"))

/-- Function `validateAutPinningPolicyValue`. -/
def validateAutPinningPolicyValue (autopinningpolicy : String) : Option GoError :=
  if autopinningpolicy = "disabled" ∨ autopinningpolicy = "existing" ∨
      autopinningpolicy = "adjust" then none
  else
    some (GoError.errorString
      ("error creating oVirt instance: The machine auto pinning policy must " ++
        "be one of the following options: " ++
        "disabled, existing or adjust. The value: " ++ autopinningpolicy ++ " is not valid"))

/-- Function `versionCompare`. The operands of each subtraction are read left to right. -/
def versionCompare (v other : Option VersionRef) : Go (Int × Option GoError) :=
  match v, other with
  | some v, some other =>
    if v.addr = other.addr then Go.ret (0, none)
    else do
      let vMajor ← v.obj.MustMajor
      let oMajor ← other.obj.MustMajor
      let result := subInt64 vMajor oMajor
      if result = 0 then
        let vMinor ← v.obj.MustMinor
        let oMinor ← other.obj.MustMinor
        let result := subInt64 vMinor oMinor
        if result = 0 then
          let vBuild ← v.obj.MustBuild
          let oBuild ← other.obj.MustBuild
          let result := subInt64 vBuild oBuild
          if result = 0 then
            let vRevision ← v.obj.MustRevision
            let oRevision ← other.obj.MustRevision
            Go.ret (subInt64 vRevision oRevision, none)
          else Go.ret (result, none)
        else Go.ret (result, none)
      else Go.ret (result, none)
  | _, _ => Go.ret (5, some (GoError.errorString "can't compare nil objects"))

/-- The version built by `NewVersionBuilder().Major(4).Minor(4).Build_(5).Revision(0)`. -/
def autoPiningRequiredEngineVersionValue : Version :=
  { major := some 4, minor := some 4, build := some 5, revision := some 0 }

/-- The address of a newly allocated version: different from the address in use. -/
def freshAddr (inUse : Option VersionRef) : Nat :=
  match inUse with
  | some r => r.addr + 1
  | none => 0

/-- The text of the error `autoPinningSupported` returns for an engine that is too old. -/
def engineTooOldMessage (major minor build : Int) : String :=
  "the engine version " ++ fmtD major ++ "." ++ fmtD minor ++ "." ++ fmtD build ++
    " is not supporting the auto pinning feature. " ++
    "Please update to 4.4.5 or later"

/-- The tail of `autoPinningSupported`, after `GetEngineVersion` has answered without
error: the comparison with the required version and the verdict. -/
def autoPinningVerdict (engineVer : Option VersionRef) : Go (Option GoError) := do
  let autoPiningRequiredEngineVersion : VersionRef :=
    { addr := freshAddr engineVer, obj := autoPiningRequiredEngineVersionValue }
  let (versionCompareResult, err) ←
    versionCompare engineVer (some autoPiningRequiredEngineVersion)
  match err with
  | some e => Go.ret (some e)
  | none =>
    if versionCompareResult ≥ 0 then Go.ret none
    else
      match engineVer with
      | none => Go.panicked
      | some ev => do
        let major ← ev.obj.MustMajor
        let minor ← ev.obj.MustMinor
        let build ← ev.obj.MustBuild
        Go.ret (some (GoError.errorString (engineTooOldMessage major minor build)))

/-- Function `autoPinningSupported`. -/
def autoPinningSupported (ovirtClient : OvirtClient)
    (config : OvirtMachineProviderSpec) : Validated (Option GoError) :=
  match validateAutPinningPolicyValue config.AutoPinningPolicy with
  | some err => { outcome := Go.ret (some err), engineVersionQueries := 0 }
  | none =>
    match ovirtClient.GetEngineVersion with
    | (_, some err) => { outcome := Go.ret (some err), engineVersionQueries := 1 }
    | (engineVer, none) =>
      { outcome := autoPinningVerdict engineVer, engineVersionQueries := 1 }

/-- The last rule of `validateMachine`: the hugepages check. -/
def validateMachineHugepages (config : OvirtMachineProviderSpec) : Option MachineError :=
  match validateHugepages config.Hugepages with
  | some err => some (InvalidMachineConfiguration (Sprintf0 err.Error))
  | none => none

/-- Function `validateMachine`. -/
def validateMachine (ErrorInvalidMachineObject : String) (ovirtClient : OvirtClient)
    (config : OvirtMachineProviderSpec) : Validated (Option MachineError) :=
  match config.UserDataSecret with
  | none =>
    ⟨Go.ret (some (InvalidMachineConfiguration (Sprintf0 (ErrorInvalidMachineObject ++
      " UserDataSecret must be provided!")))), 0⟩
  | some userDataSecret =>
    if userDataSecret.Name = "" then
      ⟨Go.ret (some (InvalidMachineConfiguration (Sprintf0 (ErrorInvalidMachineObject ++
        " UserDataSecret *Name* must be provided!")))), 0⟩
    else
      match validateInstanceID ErrorInvalidMachineObject config with
      | some err => ⟨Go.ret (some err), 0⟩
      | none =>
        match config.OSDisk with
        | none =>
          ⟨Go.ret (some (InvalidMachineConfiguration (Sprintf0 (ErrorInvalidMachineObject ++
            " OS Disk (os_disk) must be specified!")))), 0⟩
        | some osDisk =>
          if osDisk.SizeGB = 0 then
            ⟨Go.ret (some (InvalidMachineConfiguration (Sprintf0
              (ErrorInvalidMachineObject ++
                " OS Disk (os_disk) *SizeGB* must be specified!")))), 0⟩
          else
            match validateVirtualMachineType config.VMType with
            | some err => ⟨Go.ret (some err), 0⟩
            | none =>
              if config.AutoPinningPolicy ≠ "" then
                let pinning := autoPinningSupported ovirtClient config
                match pinning.outcome with
                | Go.panicked => ⟨Go.panicked, pinning.engineVersionQueries⟩
                | Go.ret (some err) =>
                  ⟨Go.ret (some (InvalidMachineConfiguration (Sprintf0 err.Error))),
                    pinning.engineVersionQueries⟩
                | Go.ret none =>
                  ⟨Go.ret (validateMachineHugepages config), pinning.engineVersionQueries⟩
              else ⟨Go.ret (validateMachineHugepages config), 0⟩

/-! ## actuator.go -/

/-- A non-nil `*ovirtsdk.Connection`: an authenticated session, known by its identity. -/
structure Connection where
  id : Nat
deriving DecidableEq, Repr

/-- Struct `ovirtC.Creds`, the content of the credentials secret. -/
structure Creds where
  URL : String
  Username : String
  Password : String
  CAFile : String
  Insecure : Bool
  CABundle : String
deriving DecidableEq, Repr

/-- The status fields of `machinev1.Machine` the actuator writes. -/
structure MachineStatus where
  ErrorReason : Option MachineStatusError
  ErrorMessage : Option String
deriving DecidableEq, Repr

/-- The parts of `machinev1.Machine` the actuator reads and writes;
`ProviderSpecValue` is `machine.Spec.ProviderSpec.Value`. -/
structure Machine where
  Name : String
  ProviderSpecValue : Option String
  Status : MachineStatus
deriving DecidableEq, Repr

/-- A non-nil `client.Client`, known by its identity. -/
structure Client where
  id : Nat
deriving DecidableEq, Repr

/-- The mutable part of `OvirtActuator` and the client it was built with. -/
structure OvirtActuator where
  client : Option Client
  ovirtConnection : Option Connection
deriving DecidableEq, Repr

/-- One notification given to `EventRecorder.Eventf`. -/
structure Event where
  object : String
  eventtype : String
  reason : String
  message : String
deriving DecidableEq, Repr

/-- Constant `corev1.EventTypeNormal`. -/
def EventTypeNormal : String := "Normal"
/-- Constant `corev1.EventTypeWarning`. -/
def EventTypeWarning : String := "Warning"

/-- The machine scope built by `newMachineScope`. -/
structure MachineScope where
  connection : Option Connection
  client : Option Client
  machine : Machine
  machineProviderSpec : Option OvirtMachineProviderSpec
deriving DecidableEq, Repr

/-- A call the actuator makes to a collaborator. -/
inductive Effect where
  | Test (c : Connection) : Effect
  | GetCredentialsSecret : Effect
  | CreateApiConnection (creds : Option Creds) : Effect
  | Eventf (e : Event) : Effect
  | ClientUpdate (m : Machine) : Effect
  | ScopeCreate : Effect
  | ScopePatchMachine : Effect
  | ScopeExists : Effect
  | ScopeDelete : Effect
deriving DecidableEq, Repr

/-- The answers of the collaborators during one actuator operation. Every one of them is
asked at most once per operation. A Go `(value, error)` result is the pair as returned.
`NAMESPACE` is the constant `utils.NAMESPACE`. -/
structure Env where
  NAMESPACE : String
  Test : Connection → Option GoError
  GetCredentialsSecret : Option Creds × Option GoError
  CreateApiConnection : Option Creds → Option Connection × Option GoError
  ProviderSpecFromRawExtension :
    Option String → Option OvirtMachineProviderSpec × Option GoError
  clientUpdate : Client → Machine → Option GoError
  scopeCreate : MachineScope → Machine × Option GoError
  scopePatchMachine : MachineScope → Machine × Option GoError
  scopeExists : MachineScope → Bool × Option GoError
  scopeDelete : MachineScope → Machine × Option GoError

/-- What a method of the actuator leaves behind: the value returned, the actuator, the
machine object and the calls made, oldest first. -/
structure Ran (α : Type) where
  ret : α
  actuator : OvirtActuator
  machine : Machine
  log : List Effect

/-- What `getConnection` leaves behind. -/
structure Connected where
  ret : Option Connection × Option GoError
  actuator : OvirtActuator
  log : List Effect

/-- The text `getConnection` gives to both of its errors. -/
def credentialsFailure (env : Env) (err : GoError) : GoError :=
  GoError.errorString
    ("failed getting credentials for namespace " ++ env.NAMESPACE ++ ", " ++ err.Error)

/-- The body of the `if` in `getConnection`: fetch the credentials and log in again. -/
def getConnectionRelogin (env : Env) (actuator : OvirtActuator) : Connected :=
  match env.GetCredentialsSecret with
  | (_, some err) =>
    { ret := (none, some (credentialsFailure env err)),
      actuator := actuator,
      log := [Effect.GetCredentialsSecret] }
  | (creds, none) =>
    match env.CreateApiConnection creds with
    | (connection, some err) =>
      { ret := (none, some (credentialsFailure env err)),
        actuator := { actuator with ovirtConnection := connection },
        log := [Effect.GetCredentialsSecret, Effect.CreateApiConnection creds] }
    | (connection, none) =>
      { ret := (connection, none),
        actuator := { actuator with ovirtConnection := connection },
        log := [Effect.GetCredentialsSecret, Effect.CreateApiConnection creds] }

/-- Method `OvirtActuator.getConnection`. `Test` is called only on a held connection. -/
def getConnection (env : Env) (actuator : OvirtActuator) : Connected :=
  match actuator.ovirtConnection with
  | none => getConnectionRelogin env actuator
  | some held =>
    match env.Test held with
    | some _ =>
      let again := getConnectionRelogin env actuator
      { again with log := Effect.Test held :: again.log }
    | none =>
      { ret := (some held, none), actuator := actuator, log := [Effect.Test held] }

/-- Method `OvirtActuator.handleMachineError`. -/
def handleMachineError (env : Env) (actuator : OvirtActuator) (machine : Machine)
    (reason : String) (err : MachineError) : Ran GoError :=
  let warning : Effect :=
    Effect.Eventf
      { object := machine.Name, eventtype := EventTypeWarning, reason := reason,
        message := err.Message }
  match actuator.client with
  | some client =>
    let updated : Machine :=
      { machine with
        Status := { ErrorReason := some err.Reason, ErrorMessage := some err.Message } }
    match env.clientUpdate client updated with
    | some updateErr =>
      { ret := GoError.errorString
          ("unable to update machine status: " ++ updateErr.Error),
        actuator := actuator, machine := updated,
        log := [warning, Effect.ClientUpdate updated] }
    | none =>
      { ret := GoError.machineError err, actuator := actuator, machine := updated,
        log := [warning, Effect.ClientUpdate updated] }
  | none =>
    { ret := GoError.machineError err, actuator := actuator, machine := machine,
      log := [warning] }

/-- The error return of an operation: `return actuator.handleMachineError(...)` after the
calls in `before`. -/
def failWith (env : Env) (actuator : OvirtActuator) (machine : Machine)
    (reason : String) (err : MachineError) (before : List Effect) :
    Ran (Option GoError) :=
  let handled := handleMachineError env actuator machine reason err
  { ret := some handled.ret, actuator := handled.actuator, machine := handled.machine,
    log := before ++ handled.log }

/-- Method `OvirtActuator.Create`. -/
def Create (env : Env) (actuator : OvirtActuator) (machine : Machine) :
    Ran (Option GoError) :=
  match env.ProviderSpecFromRawExtension machine.ProviderSpecValue with
  | (_, some err) =>
    failWith env actuator machine "Create"
      (InvalidMachineConfiguration
        ("Cannot unmarshal machineProviderSpec field: " ++ err.Error)) []
  | (providerSpec, none) =>
    let conn := getConnection env actuator
    match conn.ret with
    | (_, some err) =>
      failWith env conn.actuator machine "Create"
        (InvalidMachineConfiguration
          ("failed to create connection to oVirt API: " ++ err.Error)) conn.log
    | (connection, none) =>
      let mScope : MachineScope :=
        { connection := connection, client := actuator.client, machine := machine,
          machineProviderSpec := providerSpec }
      match env.scopeCreate mScope with
      | (created, some err) =>
        failWith env conn.actuator created "Create"
          (CreateMachine ("Error creating Machine " ++ err.Error))
          (conn.log ++ [Effect.ScopeCreate])
      | (created, none) =>
        match env.scopePatchMachine { mScope with machine := created } with
        | (patched, some err) =>
          failWith env conn.actuator patched "Create"
            (CreateMachine ("Error patching Machine " ++ err.Error))
            (conn.log ++ [Effect.ScopeCreate, Effect.ScopePatchMachine])
        | (patched, none) =>
          { ret := none, actuator := conn.actuator, machine := patched,
            log := conn.log ++ [Effect.ScopeCreate, Effect.ScopePatchMachine,
              Effect.Eventf
                { object := patched.Name, eventtype := EventTypeNormal,
                  reason := "Created",
                  message := "Updated Machine " ++ patched.Name }] }

/-- Method `OvirtActuator.Exists`. -/
def Exists (env : Env) (actuator : OvirtActuator) (machine : Machine) :
    Ran (Bool × Option GoError) :=
  let conn := getConnection env actuator
  match conn.ret with
  | (_, some _) =>
    { ret := (false,
        some (GoError.errorString "failed to create connection to oVirt API")),
      actuator := conn.actuator, machine := machine, log := conn.log }
  | (connection, none) =>
    let mScope : MachineScope :=
      { connection := connection, client := actuator.client, machine := machine,
        machineProviderSpec := none }
    { ret := env.scopeExists mScope, actuator := conn.actuator, machine := machine,
      log := conn.log ++ [Effect.ScopeExists] }

/-- Method `OvirtActuator.Update`. -/
def Update (env : Env) (actuator : OvirtActuator) (machine : Machine) :
    Ran (Option GoError) :=
  match env.ProviderSpecFromRawExtension machine.ProviderSpecValue with
  | (_, some err) =>
    failWith env actuator machine "Update"
      (InvalidMachineConfiguration
        ("Cannot unmarshal machineProviderSpec field: " ++ err.Error)) []
  | (providerSpec, none) =>
    let conn := getConnection env actuator
    match conn.ret with
    | (_, some err) =>
      failWith env conn.actuator machine "Update"
        (UpdateMachine ("failed to create connection to oVirt API " ++ err.Error))
        conn.log
    | (connection, none) =>
      let mScope : MachineScope :=
        { connection := connection, client := actuator.client, machine := machine,
          machineProviderSpec := providerSpec }
      match env.scopePatchMachine mScope with
      | (patched, some err) =>
        failWith env conn.actuator patched "Update"
          (UpdateMachine ("Error patching Machine " ++ err.Error))
          (conn.log ++ [Effect.ScopePatchMachine])
      | (patched, none) =>
        { ret := none, actuator := conn.actuator, machine := patched,
          log := conn.log ++ [Effect.ScopePatchMachine,
            Effect.Eventf
              { object := patched.Name, eventtype := EventTypeNormal,
                reason := "Update",
                message := "Updated Machine " ++ patched.Name }] }

/-- Method `OvirtActuator.Delete`. -/
def Delete (env : Env) (actuator : OvirtActuator) (machine : Machine) :
    Ran (Option GoError) :=
  let conn := getConnection env actuator
  match conn.ret with
  | (_, some err) =>
    { ret := some err, actuator := conn.actuator, machine := machine, log := conn.log }
  | (connection, none) =>
    let mScope : MachineScope :=
      { connection := connection, client := actuator.client, machine := machine,
        machineProviderSpec := none }
    match env.scopeDelete mScope with
    | (deleted, some err) =>
      failWith env conn.actuator deleted "Deleted"
        (UpdateMachine ("error deleting Ovirt instance " ++ err.Error))
        (conn.log ++ [Effect.ScopeDelete])
    | (deleted, none) =>
      { ret := none, actuator := conn.actuator, machine := deleted,
        log := conn.log ++ [Effect.ScopeDelete,
          Effect.Eventf
            { object := deleted.Name, eventtype := EventTypeNormal,
              reason := "Deleted",
              message := "Deleted Machine " ++ deleted.Name }] }

/-! ## clientService_test.go and the credential watch service -/

/-- Struct `ovirt.Credentials`. -/
structure Credentials where
  URL : String
  Username : String
  Password : String
  CAFile : String
  Insecure : Bool
  CABundle : String
deriving DecidableEq, Repr

/-- A Go `map[string]string` literal: the entries in the order written. -/
abbrev StringMap := List (String × String)

/-- Go `m[key]` on a `map[string]string`: the value, or the empty string for a missing
key. -/
def StringMap.index (m : StringMap) (key : String) : String :=
  match m.lookup key with
  | some value => value
  | none => ""

/-- The value `latestCreds` that `TestClientServiceCredentialUpdate` builds from the last
payload `c`. -/
def latestCreds (c : StringMap) : Credentials :=
  { URL := c.index "ovirt_url",
    Username := c.index "ovirt_username",
    Password := c.index "ovirt_password",
    CAFile := c.index "ovirt_cafile",
    Insecure := c.index "ovirt_insecure" == "true",
    CABundle := c.index "ovirt_ca_bundle" }

/-- Type `mockUpdatable`: a listener that keeps the last credentials it was given. -/
structure mockUpdatable where
  currentCreds : Option Credentials
deriving DecidableEq, Repr

/-- Method `mockUpdatable.SetCredentials`. -/
def mockUpdatable.SetCredentials (_u : mockUpdatable) (newCreds : Option Credentials) :
    mockUpdatable :=
  { currentCreds := newCreds }

/-- Variable `defaultCredentials` of the test. -/
def defaultCredentials : StringMap :=
  [("ovirt_url", "http://localhost/ovirt-engine/api"),
   ("ovirt_username", "user@internal"),
   ("ovirt_password", "topsecret"),
   ("ovirt_cafile", ""),
   ("ovirt_insecure", "true"),
   ("ovirt_ca_bundle", "")]

/-- Variable `updatedCredentials` of the test. -/
def updatedCredentials : StringMap :=
  [("ovirt_url", "http://new.localhost/ovirt-engine/api"),
   ("ovirt_username", "user@internal"),
   ("ovirt_password", "verysecret"),
   ("ovirt_cafile", ""),
   ("ovirt_insecure", "false"),
   ("ovirt_ca_bundle", "")]

/-- Modelled from the spec: the parsing of the secret by the credential watch service
(`pkg/ovirt`, not among the sources). The recognized keys are copied, missing keys map to
empty and false defaults, and `ovirt_insecure` is the string "true" or "false". -/
def credentialsFromSecret (data : StringMap) : Credentials :=
  { URL := data.index "ovirt_url",
    Username := data.index "ovirt_username",
    Password := data.index "ovirt_password",
    CAFile := data.index "ovirt_cafile",
    Insecure := data.index "ovirt_insecure" == "true",
    CABundle := data.index "ovirt_ca_bundle" }

/-- Modelled from the spec: the credential watch service returned by `NewClientService`
(`pkg/ovirt`, not among the sources), made of the Listener Registry and the Credential
Store. -/
structure ClientService where
  listeners : List mockUpdatable
  store : Option Credentials
deriving DecidableEq, Repr

/-- Modelled from the spec: `NewClientService` (not among the sources) starts with no
listener and no credentials. -/
def NewClientService : ClientService :=
  { listeners := [], store := none }

/-- Modelled from the spec: `AddListener` (not among the sources) appends to the
registry; nothing is replayed to the new listener. -/
def ClientService.AddListener (service : ClientService) (listener : mockUpdatable) :
    ClientService :=
  { service with listeners := service.listeners ++ [listener] }

/-- Modelled from the spec: `broadcast` (not among the sources) delivers the same value
once to every registered listener and returns when all of them have accepted it. -/
def ClientService.broadcast (service : ClientService) (creds : Credentials) :
    ClientService :=
  { service with
    listeners := service.listeners.map fun listener => listener.SetCredentials (some creds) }

/-- Modelled from the spec: what the watch loop started by `Run` (not among the sources)
does on one observed change of the secret: parse it, replace the Credential Store, then
broadcast to the Listener Registry. -/
def ClientService.observe (service : ClientService) (data : StringMap) : ClientService :=
  let creds := credentialsFromSecret data
  ClientService.broadcast { service with store := some creds } creds

/-- The course of `TestClientServiceCredentialUpdate`: the listeners are registered on a
new service, then the updates are observed one after the other. -/
def runCredentialUpdates (updatables : List mockUpdatable) (credentials : List StringMap) :
    ClientService :=
  credentials.foldl ClientService.observe
    (updatables.foldl ClientService.AddListener NewClientService)

/-! ## Inputs used in the examples -/

/-- The provider spec of `basicMachineProviderSpec` in `machine_test.go`, restricted to
the fields the validation reads. -/
def basicMachineProviderSpec : OvirtMachineProviderSpec :=
  { UserDataSecret := some { Name := "ignitionscript" },
    InstanceTypeId := "",
    MemoryMB := 16348,
    CPU := some { Sockets := 8, Cores := 1, Threads := 1 },
    OSDisk := some { SizeGB := 31 },
    VMType := "server",
    AutoPinningPolicy := "",
    Hugepages := 0 }

/-- An oVirt client whose engine reports the given version, all four components set. -/
def engineReporting (major minor build revision : Int) : OvirtClient :=
  { GetEngineVersion :=
      (some { addr := 1,
              obj := { major := some major, minor := some minor, build := some build,
                       revision := some revision } }, none) }

/-- A machine named `test-machine` with an empty status. -/
def testMachine : Machine :=
  { Name := "test-machine", ProviderSpecValue := some "providerSpec",
    Status := { ErrorReason := none, ErrorMessage := none } }

/-- Collaborators that all succeed: the probe of a held session passes, the secret is
found, the login yields session 1, the status update is accepted. -/
def envHealthy : Env :=
  { NAMESPACE := "openshift-machine-api",
    Test := fun _ => none,
    GetCredentialsSecret :=
      (some { URL := "https://engine/ovirt-engine/api", Username := "admin@internal",
              Password := "secret", CAFile := "", Insecure := true, CABundle := "" }, none),
    CreateApiConnection := fun _ => (some { id := 1 }, none),
    ProviderSpecFromRawExtension := fun _ => (some basicMachineProviderSpec, none),
    clientUpdate := fun _ _ => none,
    scopeCreate := fun scope => (scope.machine, none),
    scopePatchMachine := fun scope => (scope.machine, none),
    scopeExists := fun _ => (true, none),
    scopeDelete := fun scope => (scope.machine, none) }

/-- Collaborators where a held session fails its probe and the credentials secret cannot
be read. -/
def envNoCredentials : Env :=
  { envHealthy with
    Test := fun _ => some (GoError.errorString "session expired"),
    GetCredentialsSecret := (none, some (GoError.errorString "secret not found")) }

/-- Collaborators where a held session fails its probe, the secret is read and the engine
refuses the login, returning no connection. -/
def envLoginRefused : Env :=
  { envHealthy with
    Test := fun _ => some (GoError.errorString "session expired"),
    CreateApiConnection := fun _ => (none, some (GoError.errorString "401 unauthorized")) }

/-- Collaborators where the login works and the VM deletion is refused. -/
def envDeleteRefused : Env :=
  { envHealthy with
    scopeDelete := fun scope => (scope.machine, some (GoError.errorString "vm is locked")) }

/-- Collaborators where the status update of the machine is refused. -/
def envUpdateRefused : Env :=
  { envHealthy with
    clientUpdate := fun _ _ => some (GoError.errorString "conflict") }

/-! ## Vocabulary of the properties -/

/-- Number of authentications (`CreateApiConnection` calls) in a log. -/
def authentications (log : List Effect) : Nat :=
  log.countP fun e =>
    match e with
    | Effect.CreateApiConnection _ => true
    | _ => false

/-- The operation recorded its failure: a warning notification for the machine carries
the message of a machine error, and when the actuator has a client the status of the
machine carries the reason and the message of that error. -/
def Recorded (actuator : OvirtActuator) (ran : Ran (Option GoError)) : Prop :=
  ∃ (reason : String) (err : MachineError),
    Effect.Eventf
      { object := ran.machine.Name, eventtype := EventTypeWarning, reason := reason,
        message := err.Message } ∈ ran.log ∧
    (actuator.client ≠ none →
      ran.machine.Status =
        { ErrorReason := some err.Reason, ErrorMessage := some err.Message })

/-! ## Lemmas -/

theorem wrapInt64_of_isInt64 (x : Int) (h : isInt64 x) : wrapInt64 x = x := by
  unfold isInt64 at h
  unfold wrapInt64
  norm_num at h ⊢
  omega

theorem Go.ret_bind {α β : Type} (a : α) (f : α → Go β) : (Go.ret a >>= f) = f a := rfl

theorem subInt64_of_nonneg (a b : Int) (ha : 0 ≤ a ∧ a < 2 ^ 63) (hb : 0 ≤ b ∧ b < 2 ^ 63) :
    subInt64 a b = a - b := by
  apply wrapInt64_of_isInt64
  unfold isInt64
  norm_num at ha hb ⊢
  omega

/-- For components in the non-negative `int64` range no subtraction wraps around, and the
sign of the result of `versionCompare` is the lexicographic comparison. -/
theorem versionCompare_of_nonneg (a₁ a₂ : Nat) (hne : a₁ ≠ a₂)
    (M m b r M2 m2 b2 r2 : Int)
    (hM : 0 ≤ M ∧ M < 2 ^ 63) (hm : 0 ≤ m ∧ m < 2 ^ 63)
    (hb : 0 ≤ b ∧ b < 2 ^ 63) (hr : 0 ≤ r ∧ r < 2 ^ 63)
    (hM2 : 0 ≤ M2 ∧ M2 < 2 ^ 63) (hm2 : 0 ≤ m2 ∧ m2 < 2 ^ 63)
    (hb2 : 0 ≤ b2 ∧ b2 < 2 ^ 63) (hr2 : 0 ≤ r2 ∧ r2 < 2 ^ 63) :
    ∃ res : Int,
      versionCompare (some ⟨a₁, ⟨some M, some m, some b, some r⟩⟩)
        (some ⟨a₂, ⟨some M2, some m2, some b2, some r2⟩⟩) = Go.ret (res, none) ∧
      (res < 0 ↔ lexLt (M, m, b, r) (M2, m2, b2, r2)) ∧
      (0 < res ↔ lexLt (M2, m2, b2, r2) (M, m, b, r)) := by
  simp only [versionCompare, hne, if_false, Version.MustMajor, Version.MustMinor,
    Version.MustBuild, Version.MustRevision, Go.ret_bind,
    subInt64_of_nonneg _ _ hM hM2, subInt64_of_nonneg _ _ hm hm2,
    subInt64_of_nonneg _ _ hb hb2, subInt64_of_nonneg _ _ hr hr2, lexLt]
  split_ifs with h1 h2 h3
  · exact ⟨_, rfl, by constructor <;> intro h <;> omega, by constructor <;> intro h <;> omega⟩
  · exact ⟨_, rfl, by constructor <;> intro h <;> omega, by constructor <;> intro h <;> omega⟩
  · exact ⟨_, rfl, by constructor <;> intro h <;> omega, by constructor <;> intro h <;> omega⟩
  · exact ⟨_, rfl, by constructor <;> intro h <;> omega, by constructor <;> intro h <;> omega⟩

theorem doPrintfNoArgs_of_no_percent (l : List Char) (h : '%' ∉ l) :
    doPrintfNoArgs false l = l := by
  induction l with
  | nil => rfl
  | cons c rest ih =>
    have hc : c ≠ '%' := fun e => h (by simp [e])
    have hrest : '%' ∉ rest := fun e => h (List.mem_cons_of_mem _ e)
    simp [doPrintfNoArgs, hc, ih hrest]

theorem Sprintf0_of_no_percent (s : String) (h : '%' ∉ s.data) : Sprintf0 s = s := by
  unfold Sprintf0
  rw [doPrintfNoArgs_of_no_percent _ h]

theorem digitChar_ne_percent (n : Nat) (h : n < 10) : Nat.digitChar n ≠ '%' := by
  interval_cases n <;> decide

theorem toDigitsCore_no_percent (fuel : Nat) :
    ∀ (n : Nat) (ds : List Char), '%' ∉ ds → '%' ∉ Nat.toDigitsCore 10 fuel n ds := by
  induction fuel with
  | zero => intro n ds h; simpa [Nat.toDigitsCore] using h
  | succ fuel ih =>
    intro n ds h
    have hd : '%' ∉ Nat.digitChar (n % 10) :: ds := by
      intro hmem
      rcases List.mem_cons.mp hmem with e | e
      · exact digitChar_ne_percent _ (Nat.mod_lt _ (by decide)) e.symm
      · exact h e
    simp only [Nat.toDigitsCore]
    split
    · exact hd
    · exact ih _ _ hd

theorem fmtD_no_percent (i : Int) : '%' ∉ (fmtD i).data := by
  have hnat : ∀ n : Nat, '%' ∉ (Nat.repr n).data := by
    intro n
    simpa [Nat.repr, Nat.toDigits, List.asString] using
      toDigitsCore_no_percent (n + 1) n [] (by simp)
  cases i with
  | ofNat n => exact hnat n
  | negSucc n =>
    show '%' ∉ ("-" ++ Nat.repr (Nat.succ n)).data
    simp only [String.data_append, List.mem_append, not_or]
    exact ⟨by decide, hnat _⟩

theorem Sprintf0_engineTooOldMessage (M m b : Int) :
    Sprintf0 (engineTooOldMessage M m b) = engineTooOldMessage M m b := by
  apply Sprintf0_of_no_percent
  unfold engineTooOldMessage
  simp only [String.data_append, List.mem_append, not_or]
  refine ⟨⟨⟨⟨⟨⟨⟨?_, ?_⟩, ?_⟩, ?_⟩, ?_⟩, ?_⟩, ?_⟩, ?_⟩ <;>
    first | exact fmtD_no_percent _ | decide

theorem autoPinningVerdict_of_nonneg (addr : Nat) (M m b r : Int)
    (hM : 0 ≤ M ∧ M < 2 ^ 63) (hm : 0 ≤ m ∧ m < 2 ^ 63)
    (hb : 0 ≤ b ∧ b < 2 ^ 63) (hr : 0 ≤ r ∧ r < 2 ^ 63) :
    autoPinningVerdict (some ⟨addr, ⟨some M, some m, some b, some r⟩⟩) =
      if lexLt (M, m, b, r) (4, 4, 5, 0) then
        Go.ret (some (GoError.errorString (engineTooOldMessage M m b)))
      else Go.ret none := by
  obtain ⟨res, hres, hlt, -⟩ :=
    versionCompare_of_nonneg addr (addr + 1) (by omega) M m b r 4 4 5 0 hM hm hb hr
      (by norm_num) (by norm_num) (by norm_num) (by norm_num)
  simp only [autoPinningVerdict, freshAddr, autoPiningRequiredEngineVersionValue, hres,
    Go.ret_bind, Version.MustMajor, Version.MustMinor, Version.MustBuild]
  by_cases hl : lexLt (M, m, b, r) (4, 4, 5, 0)
  · have : ¬ res ≥ 0 := by have := hlt.mpr hl; omega
    simp [this, hl]
  · have : res ≥ 0 := by
      by_contra hcon
      exact hl (hlt.mp (by omega))
    simp [this, hl]

/-- With every other rule satisfied and one of the three auto-pinning policies set,
`validateMachine` asks the engine version once and decides by the 4.4.5.0 minimum. -/
theorem validateMachine_pinning_gate (E : String) (config : OvirtMachineProviderSpec)
    (addr : Nat) (M m b r : Int)
    (hM : 0 ≤ M ∧ M < 2 ^ 63) (hm : 0 ≤ m ∧ m < 2 ^ 63)
    (hb : 0 ≤ b ∧ b < 2 ^ 63) (hr : 0 ≤ r ∧ r < 2 ^ 63)
    (huser : ∃ u, config.UserDataSecret = some u ∧ u.Name ≠ "")
    (hinst : validateInstanceID E config = none)
    (hdisk : ∃ d, config.OSDisk = some d ∧ d.SizeGB ≠ 0)
    (hvm : validateVirtualMachineType config.VMType = none)
    (hhuge : validateHugepages config.Hugepages = none)
    (hpol : config.AutoPinningPolicy = "disabled" ∨ config.AutoPinningPolicy = "existing" ∨
      config.AutoPinningPolicy = "adjust") :
    validateMachine E ⟨(some ⟨addr, ⟨some M, some m, some b, some r⟩⟩, none)⟩ config =
      ⟨if lexLt (M, m, b, r) (4, 4, 5, 0) then
          Go.ret (some (InvalidMachineConfiguration (engineTooOldMessage M m b)))
        else Go.ret none, 1⟩ := by
  obtain ⟨u, hu, hname⟩ := huser
  obtain ⟨d, hd, hsize⟩ := hdisk
  have hne : config.AutoPinningPolicy ≠ "" := by
    rcases hpol with h | h | h <;> rw [h] <;> decide
  have hval : validateAutPinningPolicyValue config.AutoPinningPolicy = none := by
    unfold validateAutPinningPolicyValue
    rw [if_pos hpol]
  simp only [validateMachine, hu, hname, hinst, hd, hsize, hvm, hne, if_false, ne_eq,
    not_false_eq_true, if_true, autoPinningSupported, hval,
    autoPinningVerdict_of_nonneg addr M m b r hM hm hb hr, validateMachineHugepages, hhuge]
  by_cases hl : lexLt (M, m, b, r) (4, 4, 5, 0)
  · simp [hl, GoError.Error, Sprintf0_engineTooOldMessage]
  · simp [hl]

theorem string_length_eq_zero_iff (s : String) : s.length = 0 ↔ s = "" := by
  constructor
  · intro h
    cases s with
    | mk l =>
      have hl : l = [] := List.length_eq_zero.mp h
      subst hl
      rfl
  · rintro rfl
    rfl

theorem getConnectionRelogin_client (env : Env) (actuator : OvirtActuator) :
    (getConnectionRelogin env actuator).actuator.client = actuator.client := by
  unfold getConnectionRelogin
  split
  · rfl
  · split <;> rfl

theorem getConnection_client (env : Env) (actuator : OvirtActuator) :
    (getConnection env actuator).actuator.client = actuator.client := by
  unfold getConnection
  split
  · exact getConnectionRelogin_client env actuator
  · split
    · exact getConnectionRelogin_client env actuator
    · rfl

theorem getConnectionRelogin_log (env : Env) (actuator : OvirtActuator) (e : Event) :
    Effect.Eventf e ∉ (getConnectionRelogin env actuator).log := by
  unfold getConnectionRelogin
  split
  · simp
  · split <;> simp

theorem getConnection_log (env : Env) (actuator : OvirtActuator) (e : Event) :
    Effect.Eventf e ∉ (getConnection env actuator).log := by
  unfold getConnection
  split
  · exact getConnectionRelogin_log env actuator e
  · split
    · simpa using getConnectionRelogin_log env actuator e
    · simp

/-- An error return through `handleMachineError` is a recorded one. -/
theorem failWith_recorded (env : Env) (owner actuator : OvirtActuator) (machine : Machine)
    (reason : String) (err : MachineError) (before : List Effect)
    (hclient : actuator.client = owner.client) :
    Recorded owner (failWith env actuator machine reason err before) := by
  refine ⟨reason, err, ?_, ?_⟩
  · unfold failWith handleMachineError
    split
    · simp only []
      split <;> simp
    · simp
  · intro hown
    rw [← hclient] at hown
    unfold failWith handleMachineError
    split
    · simp only []
      split <;> simp
    · rename_i hnone
      exact absurd hnone hown

theorem addListeners_listeners (updatables : List mockUpdatable) :
    ∀ service : ClientService,
      (updatables.foldl ClientService.AddListener service).listeners =
        service.listeners ++ updatables := by
  induction updatables with
  | nil => intro service; simp
  | cons u rest ih =>
    intro service
    simp [List.foldl_cons, ih, ClientService.AddListener]

theorem observe_listeners_length (service : ClientService) (data : StringMap) :
    (service.observe data).listeners.length = service.listeners.length := by
  simp [ClientService.observe, ClientService.broadcast]

theorem observeAll_listeners_length (credentials : List StringMap) :
    ∀ service : ClientService,
      (credentials.foldl ClientService.observe service).listeners.length =
        service.listeners.length := by
  induction credentials with
  | nil => intro service; rfl
  | cons data rest ih =>
    intro service
    rw [List.foldl_cons, ih, observe_listeners_length]

theorem observe_currentCreds (service : ClientService) (data : StringMap)
    (u : mockUpdatable) (hu : u ∈ (service.observe data).listeners) :
    u.currentCreds = some (credentialsFromSecret data) := by
  simp only [ClientService.observe, ClientService.broadcast, List.mem_map] at hu
  obtain ⟨listener, -, rfl⟩ := hu
  rfl

/-! ## Claims -/

/-- C1: `validateInstanceID` returns no error exactly when one of the two sizing modes is
used (an instance type with no memory and no CPU, or no instance type with memory and
CPU), and every error it returns is an `InvalidMachineConfiguration`. -/
theorem validateInstanceID_ok_iff (E : String) (config : OvirtMachineProviderSpec) :
    (validateInstanceID E config = none ↔
      (config.InstanceTypeId ≠ "" ∧ config.MemoryMB = 0 ∧ config.CPU = none) ∨
      (config.InstanceTypeId = "" ∧ config.MemoryMB ≠ 0 ∧ config.CPU ≠ none)) ∧
    (validateInstanceID E config = none ∨
      ∃ message, validateInstanceID E config = some (InvalidMachineConfiguration message)) := by
  unfold validateInstanceID
  by_cases hid : config.InstanceTypeId = ""
  · have hlen : ¬ config.InstanceTypeId.length ≠ 0 := by
      simp [string_length_eq_zero_iff, hid]
    rw [if_neg hlen]
    by_cases hmem : config.MemoryMB = 0
    · simp [hid, hmem]
    · by_cases hcpu : config.CPU = none
      · simp [hid, hmem, hcpu]
      · simp [hid, hmem, hcpu]
  · have hlen : config.InstanceTypeId.length ≠ 0 := by
      simpa [string_length_eq_zero_iff] using hid
    rw [if_pos hlen]
    by_cases hmem : config.MemoryMB = 0
    · by_cases hcpu : config.CPU = none
      · simp [hid, hmem, hcpu]
      · simp [hid, hmem, hcpu]
    · simp [hid, hmem]

/-- C2: with every other rule satisfied and the policy `adjust`, for an engine version
with non-negative `int64` components reported without error, `validateMachine` returns
valid exactly when the version is lexicographically at least (4,4,5,0); otherwise it
returns an `InvalidMachineConfiguration` whose message names the 4.4.5 minimum. -/
theorem validateMachine_adjust_version_gate (E : String)
    (config : OvirtMachineProviderSpec) (addr : Nat) (M m b r : Int)
    (hM : 0 ≤ M ∧ M < 2 ^ 63) (hm : 0 ≤ m ∧ m < 2 ^ 63)
    (hb : 0 ≤ b ∧ b < 2 ^ 63) (hr : 0 ≤ r ∧ r < 2 ^ 63)
    (huser : ∃ u, config.UserDataSecret = some u ∧ u.Name ≠ "")
    (hinst : validateInstanceID E config = none)
    (hdisk : ∃ d, config.OSDisk = some d ∧ d.SizeGB ≠ 0)
    (hvm : validateVirtualMachineType config.VMType = none)
    (hhuge : validateHugepages config.Hugepages = none)
    (hpol : config.AutoPinningPolicy = "adjust") :
    ((validateMachine E
        ⟨(some ⟨addr, ⟨some M, some m, some b, some r⟩⟩, none)⟩ config).outcome = Go.ret none ↔
      ¬ lexLt (M, m, b, r) (4, 4, 5, 0)) ∧
    (validateMachine E
        ⟨(some ⟨addr, ⟨some M, some m, some b, some r⟩⟩, none)⟩ config).outcome =
      if lexLt (M, m, b, r) (4, 4, 5, 0) then
        Go.ret (some
          { Reason := InvalidConfigurationMachineError,
            Message := "the engine version " ++ fmtD M ++ "." ++ fmtD m ++ "." ++ fmtD b ++
              " is not supporting the auto pinning feature. " ++
              "Please update to 4.4.5 or later" })
      else Go.ret none := by
  rw [validateMachine_pinning_gate E config addr M m b r hM hm hb hr huser hinst hdisk hvm
    hhuge (Or.inr (Or.inr hpol))]
  by_cases hl : lexLt (M, m, b, r) (4, 4, 5, 0)
  · simp [hl, InvalidMachineConfiguration, engineTooOldMessage]
  · simp [hl]

/-- C2, at the versions of the scenario: 4.4.4.0 is rejected with the message naming the
minimum, 4.4.5.0 is accepted. -/
theorem validateMachine_adjust_version_gate_witness :
    (validateMachine "error validating machine" (engineReporting 4 4 4 0)
        { basicMachineProviderSpec with AutoPinningPolicy := "adjust" }).outcome =
      Go.ret (some
        { Reason := "InvalidConfiguration",
          Message := "the engine version 4.4.4 is not supporting the auto pinning feature. Please update to 4.4.5 or later" }) ∧
    (validateMachine "error validating machine" (engineReporting 4 4 5 0)
        { basicMachineProviderSpec with AutoPinningPolicy := "adjust" }).outcome =
      Go.ret none := by
  have hold := (validateMachine_adjust_version_gate "error validating machine"
    { basicMachineProviderSpec with AutoPinningPolicy := "adjust" } 1 4 4 4 0
    (by norm_num) (by norm_num) (by norm_num) (by norm_num)
    ⟨_, rfl, by decide⟩ (by decide) ⟨_, rfl, by decide⟩ (by decide) (by decide) rfl).2
  have hnew := (validateMachine_adjust_version_gate "error validating machine"
    { basicMachineProviderSpec with AutoPinningPolicy := "adjust" } 1 4 4 5 0
    (by norm_num) (by norm_num) (by norm_num) (by norm_num)
    ⟨_, rfl, by decide⟩ (by decide) ⟨_, rfl, by decide⟩ (by decide) (by decide) rfl).1
  refine ⟨?_, ?_⟩
  · rw [engineReporting, hold]; decide
  · rw [engineReporting]; exact hnew.mpr (by decide)

/-- C3, as stated, fails: the basic provider spec is valid with no policy, and with the
policy `disabled` against an engine reporting 4.4.4.0 it is rejected by the version
gate. -/
theorem validateMachine_disabled_old_engine_rejected :
    validateMachine "error validating machine" (engineReporting 4 4 4 0)
        basicMachineProviderSpec = ⟨Go.ret none, 0⟩ ∧
    validateMachine "error validating machine" (engineReporting 4 4 4 0)
        { basicMachineProviderSpec with AutoPinningPolicy := "disabled" } =
      ⟨Go.ret (some
        { Reason := "InvalidConfiguration",
          Message := "the engine version 4.4.4 is not supporting the auto pinning feature. Please update to 4.4.5 or later" }), 1⟩ := by
  decide

/-- C3, amended: the version gate applies to the policies `disabled` and `existing` as it
does to `adjust`. With every other rule satisfied and an engine version with non-negative
`int64` components reported without error, `validateMachine` returns valid exactly when
the version is lexicographically at least (4,4,5,0), and the rejection names the 4.4.5
minimum. -/
theorem validateMachine_disabled_existing_version_gate (E : String)
    (config : OvirtMachineProviderSpec) (addr : Nat) (M m b r : Int)
    (hM : 0 ≤ M ∧ M < 2 ^ 63) (hm : 0 ≤ m ∧ m < 2 ^ 63)
    (hb : 0 ≤ b ∧ b < 2 ^ 63) (hr : 0 ≤ r ∧ r < 2 ^ 63)
    (huser : ∃ u, config.UserDataSecret = some u ∧ u.Name ≠ "")
    (hinst : validateInstanceID E config = none)
    (hdisk : ∃ d, config.OSDisk = some d ∧ d.SizeGB ≠ 0)
    (hvm : validateVirtualMachineType config.VMType = none)
    (hhuge : validateHugepages config.Hugepages = none)
    (hpol : config.AutoPinningPolicy = "disabled" ∨ config.AutoPinningPolicy = "existing") :
    ((validateMachine E
        ⟨(some ⟨addr, ⟨some M, some m, some b, some r⟩⟩, none)⟩ config).outcome = Go.ret none ↔
      ¬ lexLt (M, m, b, r) (4, 4, 5, 0)) ∧
    (validateMachine E
        ⟨(some ⟨addr, ⟨some M, some m, some b, some r⟩⟩, none)⟩ config).outcome =
      if lexLt (M, m, b, r) (4, 4, 5, 0) then
        Go.ret (some
          { Reason := InvalidConfigurationMachineError,
            Message := "the engine version " ++ fmtD M ++ "." ++ fmtD m ++ "." ++ fmtD b ++
              " is not supporting the auto pinning feature. " ++
              "Please update to 4.4.5 or later" })
      else Go.ret none := by
  have hpol3 : config.AutoPinningPolicy = "disabled" ∨
      config.AutoPinningPolicy = "existing" ∨ config.AutoPinningPolicy = "adjust" := by
    rcases hpol with h | h
    · exact Or.inl h
    · exact Or.inr (Or.inl h)
  rw [validateMachine_pinning_gate E config addr M m b r hM hm hb hr huser hinst hdisk hvm
    hhuge hpol3]
  by_cases hl : lexLt (M, m, b, r) (4, 4, 5, 0)
  · simp [hl, InvalidMachineConfiguration, engineTooOldMessage]
  · simp [hl]

/-- C3, amended, at the policy `existing`: the basic provider spec is accepted against an
engine reporting 4.5.0.0. -/
theorem validateMachine_disabled_existing_version_gate_witness :
    (validateMachine "error validating machine" (engineReporting 4 5 0 0)
        { basicMachineProviderSpec with AutoPinningPolicy := "existing" }).outcome =
      Go.ret none := by
  have h := (validateMachine_disabled_existing_version_gate "error validating machine"
    { basicMachineProviderSpec with AutoPinningPolicy := "existing" } 1 4 5 0 0
    (by norm_num) (by norm_num) (by norm_num) (by norm_num)
    ⟨_, rfl, by decide⟩ (by decide) ⟨_, rfl, by decide⟩ (by decide) (by decide)
    (Or.inr rfl)).1
  rw [engineReporting]
  exact h.mpr (by decide)

/-- C4, at a failing input: every component is an `int64`, (-2^63,0,0,0) is
lexicographically smaller than (4,4,5,0), and `versionCompare` returns the positive
number 2^63-4 with no error, because the subtraction of the major components wraps
around. -/
theorem versionCompare_wraps_around :
    isInt64 (-9223372036854775808) ∧
    lexLt (-9223372036854775808, 0, 0, 0) (4, 4, 5, 0) ∧
    versionCompare
        (some ⟨1, ⟨some (-9223372036854775808), some 0, some 0, some 0⟩⟩)
        (some ⟨2, ⟨some 4, some 4, some 5, some 0⟩⟩) =
      Go.ret (9223372036854775804, none) := by
  decide

/-- C5: a held session whose probe succeeds is returned as it is, with the probe as the
only call made and the actuator unchanged; and from an actuator without a session, two
calls in a row with a successful login and a healthy probe return the same session after
exactly one authentication. -/
theorem getConnection_reuses_healthy_session :
    (∀ (env : Env) (actuator : OvirtActuator) (held : Connection),
      actuator.ovirtConnection = some held → env.Test held = none →
        (getConnection env actuator).ret = (some held, none) ∧
        (getConnection env actuator).log = [Effect.Test held] ∧
        (getConnection env actuator).actuator = actuator) ∧
    (∀ (env₁ env₂ : Env) (actuator : OvirtActuator) (creds : Option Creds)
        (session : Connection),
      actuator.ovirtConnection = none →
      env₁.GetCredentialsSecret = (creds, none) →
      env₁.CreateApiConnection creds = (some session, none) →
      env₂.Test session = none →
        (getConnection env₁ actuator).ret = (some session, none) ∧
        (getConnection env₂ (getConnection env₁ actuator).actuator).ret =
          (some session, none) ∧
        authentications ((getConnection env₁ actuator).log ++
          (getConnection env₂ (getConnection env₁ actuator).actuator).log) = 1) := by
  constructor
  · intro env actuator held hheld hprobe
    simp [getConnection, hheld, hprobe]
  · intro env₁ env₂ actuator creds session hnone hcreds hlogin hprobe
    simp [getConnection, getConnectionRelogin, hnone, hcreds, hlogin, hprobe,
      authentications]

/-- C5, with the collaborators of `envHealthy`: session 1 is reused, and two calls from an
actuator without a session authenticate once. -/
theorem getConnection_reuses_healthy_session_witness :
    ((getConnection envHealthy ⟨none, some ⟨1⟩⟩).ret = (some ⟨1⟩, none) ∧
      (getConnection envHealthy ⟨none, some ⟨1⟩⟩).log = [Effect.Test ⟨1⟩] ∧
      (getConnection envHealthy ⟨none, some ⟨1⟩⟩).actuator = ⟨none, some ⟨1⟩⟩) ∧
    ((getConnection envHealthy ⟨none, none⟩).ret = (some ⟨1⟩, none) ∧
      (getConnection envHealthy (getConnection envHealthy ⟨none, none⟩).actuator).ret =
        (some ⟨1⟩, none) ∧
      authentications ((getConnection envHealthy ⟨none, none⟩).log ++
        (getConnection envHealthy (getConnection envHealthy ⟨none, none⟩).actuator).log)
        = 1) :=
  ⟨getConnection_reuses_healthy_session.1 envHealthy ⟨none, some ⟨1⟩⟩ ⟨1⟩ rfl rfl,
    getConnection_reuses_healthy_session.2 envHealthy envHealthy ⟨none, none⟩ _ ⟨1⟩
      rfl rfl rfl rfl⟩

/-- C6, as stated, fails: the actuator holds session 7, its probe fails and the
credentials cannot be read; `getConnection` returns an error and the actuator still
holds session 7. -/
theorem getConnection_keeps_stale_session :
    (getConnection envNoCredentials ⟨none, some ⟨7⟩⟩).ret =
      (none, some (GoError.errorString
        "failed getting credentials for namespace openshift-machine-api, secret not found")) ∧
    (getConnection envNoCredentials ⟨none, some ⟨7⟩⟩).actuator.ovirtConnection =
      some ⟨7⟩ := by
  decide

/-- C6, amended: whenever `getConnection` returns an error it returns no session; if the
credential fetch failed the actuator is left as it was, and if the authentication failed
the session slot holds what `CreateApiConnection` returned next to its error. -/
theorem getConnection_error_state (env : Env) (actuator : OvirtActuator)
    (herr : (getConnection env actuator).ret.2 ≠ none) :
    (getConnection env actuator).ret.1 = none ∧
    ((env.GetCredentialsSecret.2 ≠ none ∧
        (getConnection env actuator).actuator = actuator) ∨
      (env.GetCredentialsSecret.2 = none ∧
        (env.CreateApiConnection env.GetCredentialsSecret.1).2 ≠ none ∧
        (getConnection env actuator).actuator.ovirtConnection =
          (env.CreateApiConnection env.GetCredentialsSecret.1).1)) := by
  have hrelogin : ∀ a : OvirtActuator, (getConnectionRelogin env a).ret.2 ≠ none →
      (getConnectionRelogin env a).ret.1 = none ∧
      ((env.GetCredentialsSecret.2 ≠ none ∧ (getConnectionRelogin env a).actuator = a) ∨
        (env.GetCredentialsSecret.2 = none ∧
          (env.CreateApiConnection env.GetCredentialsSecret.1).2 ≠ none ∧
          (getConnectionRelogin env a).actuator.ovirtConnection =
            (env.CreateApiConnection env.GetCredentialsSecret.1).1)) := by
    intro a
    unfold getConnectionRelogin
    rcases hsecret : env.GetCredentialsSecret with ⟨creds, _ | credsErr⟩
    · rcases hlogin : env.CreateApiConnection creds with ⟨connection, _ | loginErr⟩
      · simp [hlogin]
      · simp [hlogin]
    · simp
  rcases hheld : actuator.ovirtConnection with _ | held
  · have e : getConnection env actuator = getConnectionRelogin env actuator := by
      simp [getConnection, hheld]
    rw [e] at herr ⊢
    exact hrelogin actuator herr
  · rcases hprobe : env.Test held with _ | probeErr
    · have e : (getConnection env actuator).ret = (some held, none) := by
        simp [getConnection, hheld, hprobe]
      rw [e] at herr
      exact absurd rfl herr
    · have e₁ : (getConnection env actuator).ret = (getConnectionRelogin env actuator).ret := by
        simp [getConnection, hheld, hprobe]
      have e₂ : (getConnection env actuator).actuator =
          (getConnectionRelogin env actuator).actuator := by
        simp [getConnection, hheld, hprobe]
      rw [e₁] at herr
      rw [e₁, e₂]
      exact hrelogin actuator herr

/-- C6, amended, with a held session 7 whose probe fails and a refused login: no session
is returned and the slot takes the nil connection the login returned. -/
theorem getConnection_error_state_witness :
    (getConnection envLoginRefused ⟨none, some ⟨7⟩⟩).ret.1 = none ∧
    (getConnection envLoginRefused ⟨none, some ⟨7⟩⟩).actuator.ovirtConnection = none := by
  have h := getConnection_error_state envLoginRefused ⟨none, some ⟨7⟩⟩ (by decide)
  refine ⟨h.1, ?_⟩
  rcases h.2 with ⟨hfetch, _⟩ | ⟨_, _, hslot⟩
  · exact absurd rfl hfetch
  · exact hslot

/-- C7, as stated, fails: the basic provider spec with a root disk of size -1 passes the
user-data and instance-type rules and `validateMachine` accepts it. -/
theorem validateMachine_accepts_negative_disk :
    validateInstanceID "error validating machine"
        { basicMachineProviderSpec with OSDisk := some ⟨-1⟩ } = none ∧
    validateMachine "error validating machine" (engineReporting 4 4 5 0)
        { basicMachineProviderSpec with OSDisk := some ⟨-1⟩ } = ⟨Go.ret none, 0⟩ := by
  decide

/-- C7, amended: a provider spec that passes the user-data and instance-type rules is
rejected with an `InvalidMachineConfiguration` whenever the root disk is absent or its
size is zero. A non-zero size, negative ones included, passes the root-disk rule: when
the rules that follow (VM type, auto-pinning, hugepages) are satisfied, the spec is valid
exactly when the root disk is present with a non-zero size. The result never depends on
which non-zero size is given. -/
theorem validateMachine_rejects_missing_or_zero_disk (E : String)
    (ovirtClient : OvirtClient) (config : OvirtMachineProviderSpec)
    (huser : ∃ u, config.UserDataSecret = some u ∧ u.Name ≠ "")
    (hinst : validateInstanceID E config = none) :
    ((config.OSDisk = none ∨ ∃ d, config.OSDisk = some d ∧ d.SizeGB = 0) →
      ∃ message, validateMachine E ovirtClient config =
        ⟨Go.ret (some (InvalidMachineConfiguration message)), 0⟩) ∧
    (validateVirtualMachineType config.VMType = none →
      (config.AutoPinningPolicy = "" ∨
        (autoPinningSupported ovirtClient config).outcome = Go.ret none) →
      validateHugepages config.Hugepages = none →
        ((validateMachine E ovirtClient config).outcome = Go.ret none ↔
          ∃ d, config.OSDisk = some d ∧ d.SizeGB ≠ 0)) ∧
    (∀ size size2 : Int, size ≠ 0 → size2 ≠ 0 →
      validateMachine E ovirtClient { config with OSDisk := some ⟨size⟩ } =
        validateMachine E ovirtClient { config with OSDisk := some ⟨size2⟩ }) := by
  obtain ⟨u, hu, hname⟩ := huser
  have hreject : (config.OSDisk = none ∨ ∃ d, config.OSDisk = some d ∧ d.SizeGB = 0) →
      ∃ message, validateMachine E ovirtClient config =
        ⟨Go.ret (some (InvalidMachineConfiguration message)), 0⟩ := by
    rintro (hnone | ⟨d, hd, hzero⟩)
    · exact ⟨Sprintf0 (E ++ " OS Disk (os_disk) must be specified!"),
        by simp [validateMachine, hu, hname, hinst, hnone]⟩
    · exact ⟨Sprintf0 (E ++ " OS Disk (os_disk) *SizeGB* must be specified!"),
        by simp [validateMachine, hu, hname, hinst, hd, hzero]⟩
  refine ⟨hreject, ?_, ?_⟩
  · intro hvm hpin hhuge
    constructor
    · intro hvalid
      rcases hdisk : config.OSDisk with _ | d
      · obtain ⟨message, hmsg⟩ := hreject (Or.inl hdisk)
        rw [hmsg] at hvalid
        simp at hvalid
      · by_cases hsize : d.SizeGB = 0
        · obtain ⟨message, hmsg⟩ := hreject (Or.inr ⟨d, hdisk, hsize⟩)
          rw [hmsg] at hvalid
          simp at hvalid
        · exact ⟨d, rfl, hsize⟩
    · rintro ⟨d, hd, hsize⟩
      by_cases hpol : config.AutoPinningPolicy = ""
      · simp [validateMachine, hu, hname, hinst, hd, hsize, hvm, hpol,
          validateMachineHugepages, hhuge]
      · have hout : (autoPinningSupported ovirtClient config).outcome = Go.ret none := by
          rcases hpin with h | h
          · exact absurd h hpol
          · exact h
        simp [validateMachine, hu, hname, hinst, hd, hsize, hvm, hpol, hout,
          validateMachineHugepages, hhuge]
  · intro size size2 hsize hsize2
    simp [validateMachine, validateInstanceID, autoPinningSupported,
      validateMachineHugepages, hsize, hsize2]

/-- C7, amended, at the basic provider spec: without a root disk and with a root disk of
size 0 it is rejected, with a root disk of size -1 it is valid. -/
theorem validateMachine_rejects_missing_or_zero_disk_witness :
    (∃ message, validateMachine "error validating machine" (engineReporting 4 4 5 0)
        { basicMachineProviderSpec with OSDisk := none } =
      ⟨Go.ret (some (InvalidMachineConfiguration message)), 0⟩) ∧
    (∃ message, validateMachine "error validating machine" (engineReporting 4 4 5 0)
        { basicMachineProviderSpec with OSDisk := some ⟨0⟩ } =
      ⟨Go.ret (some (InvalidMachineConfiguration message)), 0⟩) ∧
    (validateMachine "error validating machine" (engineReporting 4 4 5 0)
        { basicMachineProviderSpec with OSDisk := some ⟨-1⟩ }).outcome = Go.ret none :=
  ⟨(validateMachine_rejects_missing_or_zero_disk "error validating machine"
      (engineReporting 4 4 5 0) { basicMachineProviderSpec with OSDisk := none }
      ⟨_, rfl, by decide⟩ (by decide)).1 (Or.inl rfl),
    (validateMachine_rejects_missing_or_zero_disk "error validating machine"
      (engineReporting 4 4 5 0) { basicMachineProviderSpec with OSDisk := some ⟨0⟩ }
      ⟨_, rfl, by decide⟩ (by decide)).1 (Or.inr ⟨_, rfl, rfl⟩),
    ((validateMachine_rejects_missing_or_zero_disk "error validating machine"
      (engineReporting 4 4 5 0) { basicMachineProviderSpec with OSDisk := some ⟨-1⟩ }
      ⟨_, rfl, by decide⟩ (by decide)).2.1 (by decide) (Or.inl rfl) (by decide)).mpr
      ⟨_, rfl, by decide⟩⟩

/-- C8, as stated, fails: with an actuator that has a client and no session, and
credentials that cannot be read, `Exists` returns an error, the only call made is the
credential fetch (no notification) and the machine is left untouched. -/
theorem Exists_connection_failure_unrecorded :
    (Exists envNoCredentials ⟨some ⟨1⟩, none⟩ testMachine).ret =
      (false, some (GoError.errorString "failed to create connection to oVirt API")) ∧
    (Exists envNoCredentials ⟨some ⟨1⟩, none⟩ testMachine).log =
      [Effect.GetCredentialsSecret] ∧
    (Exists envNoCredentials ⟨some ⟨1⟩, none⟩ testMachine).machine = testMachine := by
  decide

/-- C8, amended: every error returned by `Create` and by `Update` is recorded (warning
notification and, with a client, the status fields); so is the error `Delete` returns
when the deletion fails after the connection was obtained; the error `Exists` returns
when `getConnection` fails comes with no notification and leaves the machine as it was. -/
theorem actuator_errors_recorded (env : Env) (actuator : OvirtActuator)
    (machine : Machine) :
    ((Create env actuator machine).ret ≠ none →
      Recorded actuator (Create env actuator machine)) ∧
    ((Update env actuator machine).ret ≠ none →
      Recorded actuator (Update env actuator machine)) ∧
    ((getConnection env actuator).ret.2 = none →
      (Delete env actuator machine).ret ≠ none →
        Recorded actuator (Delete env actuator machine)) ∧
    ((getConnection env actuator).ret.2 ≠ none →
      (Exists env actuator machine).ret.2 ≠ none ∧
      (Exists env actuator machine).machine = machine ∧
      ∀ e, Effect.Eventf e ∉ (Exists env actuator machine).log) := by
  have hclient := getConnection_client env actuator
  refine ⟨?_, ?_, ?_, ?_⟩
  · unfold Create
    split
    · intro _; exact failWith_recorded _ _ _ _ _ _ _ rfl
    · simp only []
      split
      · intro _; exact failWith_recorded _ _ _ _ _ _ _ hclient
      · split
        · intro _; exact failWith_recorded _ _ _ _ _ _ _ hclient
        · split
          · intro _; exact failWith_recorded _ _ _ _ _ _ _ hclient
          · intro h; exact absurd rfl h
  · unfold Update
    split
    · intro _; exact failWith_recorded _ _ _ _ _ _ _ rfl
    · simp only []
      split
      · intro _; exact failWith_recorded _ _ _ _ _ _ _ hclient
      · split
        · intro _; exact failWith_recorded _ _ _ _ _ _ _ hclient
        · intro h; exact absurd rfl h
  · intro hok
    unfold Delete
    simp only []
    split
    · rename_i hfail
      rw [hfail] at hok
      exact absurd hok (by simp)
    · split
      · intro _; exact failWith_recorded _ _ _ _ _ _ _ hclient
      · intro h; exact absurd rfl h
  · intro hfail
    unfold Exists
    simp only []
    split
    · exact ⟨by simp, rfl, getConnection_log env actuator⟩
    · rename_i hok
      rw [hok] at hfail
      exact absurd rfl hfail

/-- C8, amended, with an actuator that has a client and no session: the errors of
`Create` and `Update` when the credentials cannot be read, and the error of `Delete` when
the deletion is refused, are recorded; `Exists` leaves the machine as it was when the
credentials cannot be read. -/
theorem actuator_errors_recorded_witness :
    Recorded ⟨some ⟨1⟩, none⟩ (Create envNoCredentials ⟨some ⟨1⟩, none⟩ testMachine) ∧
    Recorded ⟨some ⟨1⟩, none⟩ (Update envNoCredentials ⟨some ⟨1⟩, none⟩ testMachine) ∧
    Recorded ⟨some ⟨1⟩, none⟩ (Delete envDeleteRefused ⟨some ⟨1⟩, none⟩ testMachine) ∧
    (Exists envNoCredentials ⟨some ⟨1⟩, none⟩ testMachine).machine = testMachine :=
  ⟨(actuator_errors_recorded envNoCredentials ⟨some ⟨1⟩, none⟩ testMachine).1 (by decide),
    (actuator_errors_recorded envNoCredentials ⟨some ⟨1⟩, none⟩ testMachine).2.1
      (by decide),
    (actuator_errors_recorded envDeleteRefused ⟨some ⟨1⟩, none⟩ testMachine).2.2.1
      (by decide) (by decide),
    ((actuator_errors_recorded envNoCredentials ⟨some ⟨1⟩, none⟩ testMachine).2.2.2
      (by decide)).2.1⟩

/-- C9, at a failing input: the provider spec unmarshals, the credentials cannot be read
and the status update is accepted; `Create` returns a machine error with the reason
`InvalidConfiguration`, where `Update` returns one with the reason `UpdateError`. -/
theorem Create_connection_failure_reason :
    (envNoCredentials.ProviderSpecFromRawExtension testMachine.ProviderSpecValue).2 = none ∧
    (getConnection envNoCredentials ⟨some ⟨1⟩, none⟩).ret.2 ≠ none ∧
    (Create envNoCredentials ⟨some ⟨1⟩, none⟩ testMachine).ret =
      some (GoError.machineError
        { Reason := "InvalidConfiguration",
          Message := "failed to create connection to oVirt API: failed getting credentials for namespace openshift-machine-api, secret not found" }) ∧
    (Update envNoCredentials ⟨some ⟨1⟩, none⟩ testMachine).ret =
      some (GoError.machineError
        { Reason := "UpdateError",
          Message := "failed to create connection to oVirt API failed getting credentials for namespace openshift-machine-api, secret not found" }) := by
  decide

/-- C10, at a failing input: the actuator has a client and the status update is refused;
`handleMachineError` returns a new error about the update, not the machine error it was
given, after emitting the warning and setting the status fields. -/
theorem handleMachineError_update_refused :
    (handleMachineError envUpdateRefused ⟨some ⟨1⟩, none⟩ testMachine "Create"
        (CreateMachine "Error creating Machine quota exceeded")).ret =
      GoError.errorString "unable to update machine status: conflict" ∧
    (handleMachineError envUpdateRefused ⟨some ⟨1⟩, none⟩ testMachine "Create"
        (CreateMachine "Error creating Machine quota exceeded")).ret ≠
      GoError.machineError (CreateMachine "Error creating Machine quota exceeded") := by
  decide

/-- C11: `validateHugepages` returns no error exactly for the values 0, 2048 and 1048576;
every other value, 4096 and the negative ones included, gets an error. -/
theorem validateHugepages_ok_iff (value : Int) :
    (validateHugepages value = none ↔ value = 0 ∨ value = 2048 ∨ value = 1048576) ∧
    (validateHugepages value = none ∨
      ∃ message, validateHugepages value = some (GoError.errorString message)) := by
  unfold validateHugepages
  by_cases h : value = 0 ∨ value = 2048 ∨ value = 1048576
  · simp [h]
  · simp [h]

/-- C12: `validateVirtualMachineType` returns no error exactly for the strings `server`,
`high_performance` and `desktop`; the empty string and every other string get an
`InvalidMachineConfiguration` error. -/
theorem validateVirtualMachineType_ok_iff (vmtype : String) :
    (validateVirtualMachineType vmtype = none ↔
      vmtype = "server" ∨ vmtype = "high_performance" ∨ vmtype = "desktop") ∧
    (validateVirtualMachineType vmtype = none ∨
      ∃ message,
        validateVirtualMachineType vmtype = some (InvalidMachineConfiguration message)) := by
  unfold validateVirtualMachineType
  by_cases hlen : vmtype.length = 0
  · have hempty : vmtype = "" := (string_length_eq_zero_iff vmtype).mp hlen
    subst hempty
    simp
  · by_cases h : vmtype = "server" ∨ vmtype = "high_performance" ∨ vmtype = "desktop"
    · simp [hlen, h]
    · simp [hlen, h]

/-- C13: `versionCompare` returns a non-nil error as soon as one of its two arguments is
nil, and a nil error for two non-nil versions with all four components set. -/
theorem versionCompare_error_iff_nil :
    (∀ other : Option VersionRef,
      ∃ res err, versionCompare none other = Go.ret (res, some err)) ∧
    (∀ v : Option VersionRef,
      ∃ res err, versionCompare v none = Go.ret (res, some err)) ∧
    (∀ (a₁ a₂ : Nat) (M m b r M2 m2 b2 r2 : Int),
      ∃ res, versionCompare (some ⟨a₁, ⟨some M, some m, some b, some r⟩⟩)
        (some ⟨a₂, ⟨some M2, some m2, some b2, some r2⟩⟩) = Go.ret (res, none)) := by
  refine ⟨?_, ?_, ?_⟩
  · intro other
    exact ⟨5, GoError.errorString "can't compare nil objects", by simp [versionCompare]⟩
  · intro v
    refine ⟨5, GoError.errorString "can't compare nil objects", ?_⟩
    cases v <;> simp [versionCompare]
  · intro a₁ a₂ M m b r M2 m2 b2 r2
    simp only [versionCompare, Version.MustMajor, Version.MustMinor, Version.MustBuild,
      Version.MustRevision, Go.ret_bind]
    split_ifs <;> exact ⟨_, rfl⟩

/-- C14: after the listeners are registered and at least one update is observed, the
number of listeners is unchanged and the last value every listener received is the
credentials built from the last update. -/
theorem runCredentialUpdates_last (updatables : List mockUpdatable)
    (credentials : List StringMap) (hN : credentials ≠ []) :
    (runCredentialUpdates updatables credentials).listeners.length = updatables.length ∧
    ∀ u ∈ (runCredentialUpdates updatables credentials).listeners,
      u.currentCreds = some (latestCreds (credentials.getLast hN)) := by
  unfold runCredentialUpdates
  constructor
  · rw [observeAll_listeners_length, addListeners_listeners]
    simp [NewClientService]
  · intro u hu
    have hsplit := List.dropLast_append_getLast hN
    rw [← hsplit, List.foldl_append] at hu
    simp only [List.foldl_cons, List.foldl_nil] at hu
    exact observe_currentCreds _ _ u hu

/-- C14, at the case `multiple updatable with multiple credential updates` of the test:
three listeners, `defaultCredentials` then `updatedCredentials`. -/
theorem runCredentialUpdates_last_witness :
    (runCredentialUpdates [⟨none⟩, ⟨none⟩, ⟨none⟩]
        [defaultCredentials, updatedCredentials]).listeners.length = 3 ∧
    ∀ u ∈ (runCredentialUpdates [⟨none⟩, ⟨none⟩, ⟨none⟩]
        [defaultCredentials, updatedCredentials]).listeners,
      u.currentCreds = some (latestCreds updatedCredentials) :=
  runCredentialUpdates_last [⟨none⟩, ⟨none⟩, ⟨none⟩]
    [defaultCredentials, updatedCredentials] (by decide)

/-- C15: for a provider spec with an empty auto-pinning policy, `validateMachine` makes no
`GetEngineVersion` call and returns the same result with any two oVirt clients. -/
theorem validateMachine_independent_of_client (E : String)
    (config : OvirtMachineProviderSpec) (hpol : config.AutoPinningPolicy = "")
    (client₁ client₂ : OvirtClient) :
    (validateMachine E client₁ config).engineVersionQueries = 0 ∧
    validateMachine E client₁ config = validateMachine E client₂ config := by
  have hform : ∀ c : OvirtClient, ∃ out,
      validateMachine E c config = ⟨out, 0⟩ ∧
      validateMachine E client₂ config = ⟨out, 0⟩ := by
    intro c
    unfold validateMachine
    simp only [hpol, ne_eq, not_true_eq_false, if_false]
    split
    · exact ⟨_, rfl, rfl⟩
    · split
      · exact ⟨_, rfl, rfl⟩
      · split
        · exact ⟨_, rfl, rfl⟩
        · split
          · exact ⟨_, rfl, rfl⟩
          · split
            · exact ⟨_, rfl, rfl⟩
            · split <;> exact ⟨_, rfl, rfl⟩
  obtain ⟨out, h₁, h₂⟩ := hform client₁
  rw [h₁, h₂]
  exact ⟨rfl, rfl⟩

/-- C15, at the basic provider spec: an engine reporting 4.4.4.0 and a client whose
version query fails give the same result, without any query. -/
theorem validateMachine_independent_of_client_witness :
    (validateMachine "error validating machine" (engineReporting 4 4 4 0)
        basicMachineProviderSpec).engineVersionQueries = 0 ∧
    validateMachine "error validating machine" (engineReporting 4 4 4 0)
        basicMachineProviderSpec =
      validateMachine "error validating machine"
        ⟨(none, some (GoError.errorString "connection refused"))⟩
        basicMachineProviderSpec :=
  validateMachine_independent_of_client "error validating machine"
    basicMachineProviderSpec rfl (engineReporting 4 4 4 0)
    ⟨(none, some (GoError.errorString "connection refused"))⟩

end Ovirt
